import Mathlib

set_option autoImplicit false

/-!
A shallow embedding of the chat route handler
(`src/app/api/chat/route.ts`) and proofs about its admission control,
persistence and response behaviour.

External collaborators (the identity provider, the relational store and
the LLM provider) are abstracted as an explicit environment of outcomes;
the handler itself is translated statement by statement.  The handler
returns, besides the HTTP response, the updated in-memory rate-limit
store and the ordered trace of attempted external effects, so that frame
properties ("no store write happened") are directly statable.
-/

namespace ChatRoute

/-- JavaScript truthiness of an optional string (`!v`, `v ? a : b`,
`Boolean(v)`): `null`/`undefined` and the empty string are falsy. -/
def truthyStr : Option String → Bool
  | none => false
  | some s => s != ""

/-- JavaScript truthiness of an optional number: `null`/`undefined` and
`0` are falsy. -/
def truthyNat : Option Nat → Bool
  | none => false
  | some n => n != 0

/-- `s.startsWith(pre)`, computed on the character lists so that it
reduces in the kernel. -/
def jsStartsWith (s pre : String) : Bool := pre.data.isPrefixOf s.data

/-- `s.slice(n)` on characters: drop the first `n` characters. -/
def jsDrop (s : String) (n : Nat) : String := ⟨s.data.drop n⟩

/-- `s.slice(0, n)` on characters: the first `n` characters. -/
def jsTake (s : String) (n : Nat) : String := ⟨s.data.take n⟩

/-- `s.trim()`: strip leading and trailing whitespace. -/
def jsTrim (s : String) : String :=
  ⟨((s.data.dropWhile Char.isWhitespace).reverse.dropWhile Char.isWhitespace).reverse⟩

/-- `s.split(",")[0]`: the characters before the first comma. -/
def firstCommaField (s : String) : String := ⟨s.data.takeWhile (fun c => c != ',')⟩

/-- One element of the request body `messages` array
(`type IncomingMessage = { role, content }`).  The runtime code never
validates the role, so it is an arbitrary string here. -/
structure IncomingMessage where
  role : String
  content : String
  deriving DecidableEq, Repr

/-- An entry of the in-memory rate-limit map: `{ count, windowStart }`.
Times are in milliseconds, as returned by `Date.now()`. -/
structure RateEntry where
  count : Nat
  windowStart : Nat
  deriving DecidableEq, Repr

/-- The process-local `rateLimitStore : Map<string, {count, windowStart}>`,
modelled as an association list keyed by the client identifier. -/
abbrev RateLimitStore := List (String × RateEntry)

/-- `rateLimitStore.get(key)`. -/
def storeGet (store : RateLimitStore) (key : String) : Option RateEntry :=
  match store with
  | [] => none
  | (k, e) :: rest => if k == key then some e else storeGet rest key

/-- `rateLimitStore.set(key, e)`: replaces the entry for `key`, or appends
one if the key is new. -/
def storeSet (store : RateLimitStore) (key : String) (e : RateEntry) : RateLimitStore :=
  match store with
  | [] => [(key, e)]
  | (k, e0) :: rest =>
    if k == key then (key, e) :: rest else (k, e0) :: storeSet rest key e

/-- `RATE_LIMIT_WINDOW_MS = 60_000`. -/
def RATE_LIMIT_WINDOW_MS : Nat := 60000

/-- `RATE_LIMIT_MAX_REQUESTS = 20`. -/
def RATE_LIMIT_MAX_REQUESTS : Nat := 20

/-- `MAX_GUEST_MESSAGES = 12`. -/
def MAX_GUEST_MESSAGES : Nat := 12

/-- `MAX_AUTH_MESSAGES = 40`. -/
def MAX_AUTH_MESSAGES : Nat := 40

/-- `isRateLimited(key)` (route lines 34-54).  `Date.now()` is passed in
as `now`; the mutation of the global map becomes an explicit returned
store.  Note that on the in-window path the entry is incremented before
the ceiling test, and incremented even when the request is rejected. -/
def isRateLimited (key : String) (now : Nat) (store : RateLimitStore) :
    Bool × RateLimitStore :=
  match storeGet store key with
  | none => (false, storeSet store key ⟨1, now⟩)
  | some entry =>
    if now - entry.windowStart > RATE_LIMIT_WINDOW_MS then
      (false, storeSet store key ⟨1, now⟩)
    else
      let newCount := entry.count + 1
      (decide (newCount > RATE_LIMIT_MAX_REQUESTS),
       storeSet store key ⟨newCount, entry.windowStart⟩)

/-- `getClientIdentifier(request, userId, guestId)` (route lines 19-32):
priority `user > guest > x-forwarded-for address > "anonymous"`, each
tested for JavaScript truthiness. -/
def getClientIdentifier (xForwardedFor : Option String)
    (userId guestId : Option String) : String :=
  let ip := xForwardedFor.map (fun h => jsTrim (firstCommaField h))
  if truthyStr userId then "user:" ++ userId.getD ""
  else if truthyStr guestId then "guest:" ++ guestId.getD ""
  else if truthyStr ip then "ip:" ++ ip.getD ""
  else "anonymous"

/-- Identity resolution (route lines 92-105): read the authorization
header, extract and trim the bearer token, and ask the identity provider
(`supabaseServerClient.auth.getUser`), abstracted as a function from
token to optional user id.  Any verification failure yields `none`. -/
def resolveUserId (authorization : Option String)
    (verifyToken : String → Option String) : Option String :=
  match authorization with
  | none => none
  | some h =>
    if jsStartsWith h "Bearer " then
      let accessToken := jsTrim (jsDrop h 7)
      if accessToken != "" then verifyToken accessToken else none
    else none

/-- `makeClientMessageId()` (route lines 56-58): a fresh client-facing id
`assistant-<random>`; the random suffix is supplied by the environment. -/
def makeClientMessageId (randomSuffix : String) : String :=
  "assistant-" ++ randomSuffix

/-- `messages.slice(-n)` for `n > 0`: the last `n` elements (all of them
when `n` exceeds the length). -/
def sliceLast {α : Type} (l : List α) (n : Nat) : List α :=
  l.drop (l.length - n)

/-- The fixed leading system instruction of the provider payload
(route lines 175-182). -/
def systemMessage : IncomingMessage :=
  ⟨"system", "You are a helpful assistant inside a Baseten-powered chat application."⟩

/-- Server configuration (`process.env.BASETEN_API_KEY`,
`process.env.BASETEN_MODEL_SLUG`); each is an optional string. -/
structure Config where
  basetenApiKey : Option String
  basetenModelSlug : Option String
  deriving DecidableEq, Repr

/-- The parsed JSON request body `{ messages?, conversationId?, guestId? }`.
`messages := none` covers both a missing field and a non-array value,
which the handler treats identically. -/
structure ReqBody where
  messages : Option (List IncomingMessage)
  conversationId : Option String
  guestId : Option String
  deriving DecidableEq, Repr

/-- The inbound HTTP request: the `x-forwarded-for` and `authorization`
headers and the body (`none` when `request.json()` throws). -/
structure Request where
  xForwardedFor : Option String
  authorization : Option String
  body : Option ReqBody
  deriving DecidableEq, Repr

/-- The `usage` object of the provider reply, with every provider-specific
field name the handler consults; absent fields are `none`.  An absent
`usage` object altogether is the all-`none` value. -/
structure Usage where
  prompt_tokens : Option Nat
  input_tokens : Option Nat
  request_tokens : Option Nat
  completion_tokens : Option Nat
  output_tokens : Option Nat
  response_tokens : Option Nat
  total_tokens : Option Nat
  deriving DecidableEq, Repr

/-- The `usage` value when the provider reports no usage fields at all
(`json?.usage ?? {}`). -/
def emptyUsage : Usage := ⟨none, none, none, none, none, none, none⟩

/-- Outcome of the provider call: a non-2xx HTTP response, or a parsed
body with `content := json?.choices?.[0]?.message?.content` and the
normalised `usage` object. -/
inductive ProviderReply where
  | httpError (status : Nat)
  | ok (content : Option String) (usage : Usage)
  deriving DecidableEq, Repr

/-- `usage.prompt_tokens ?? usage.input_tokens ?? usage.request_tokens ?? null`
(route lines 225-226). -/
def inputTokensOf (u : Usage) : Option Nat :=
  match u.prompt_tokens with
  | some n => some n
  | none =>
    match u.input_tokens with
    | some n => some n
    | none => u.request_tokens

/-- `usage.completion_tokens ?? usage.output_tokens ?? usage.response_tokens ?? null`
(route lines 227-229). -/
def outputTokensOf (u : Usage) : Option Nat :=
  match u.completion_tokens with
  | some n => some n
  | none =>
    match u.output_tokens with
    | some n => some n
    | none => u.response_tokens

/-- `usage.total_tokens ?? (inputTokens && outputTokens ? inputTokens + outputTokens : null)`
(route lines 230-231).  The middle test is JavaScript truthiness, so a
present-but-zero part suppresses the computed sum. -/
def totalTokensOf (u : Usage) : Option Nat :=
  match u.total_tokens with
  | some t => some t
  | none =>
    if truthyNat (inputTokensOf u) && truthyNat (outputTokensOf u) then
      some ((inputTokensOf u).getD 0 + (outputTokensOf u).getD 0)
    else none

/-- The row inserted into `conversations` (route lines 136-144). -/
structure ConversationRow where
  user_id : Option String
  guest_id : Option String
  title : Option String
  deriving DecidableEq, Repr

/-- A row inserted into `messages` (route lines 159-165 and 233-239). -/
structure MessageRow where
  conversation_id : String
  role : String
  content : String
  deriving DecidableEq, Repr

/-- The row inserted into `model_invocations` (route lines 245-256). -/
structure MetricsRow where
  conversation_id : String
  provider : String
  model : String
  latency_ms : Nat
  input_tokens : Option Nat
  output_tokens : Option Nat
  total_tokens : Option Nat
  estimated_cost_usd : Option Nat
  deriving DecidableEq, Repr

/-- One attempted external effect, in pipeline order.  Store inserts
carry the attempted row and whether the store accepted it. -/
inductive Effect where
  | conversationInsert (row : ConversationRow) (ok : Bool)
  | messageInsert (row : MessageRow) (ok : Bool)
  | providerCall (payload : List IncomingMessage)
  | metricsInsert (row : MetricsRow) (ok : Bool)
  deriving DecidableEq, Repr

/-- The JSON body of the 200 response (route lines 262-269). -/
structure SuccessBody where
  conversationId : String
  messageId : String
  role : String
  content : String
  deriving DecidableEq, Repr

/-- The HTTP response of the handler. -/
inductive Response where
  | ok (body : SuccessBody)
  | error (status : Nat) (msg : String)
  deriving DecidableEq, Repr

/-- The conversation title (route lines 131-134): the first user-role
message's content truncated to 80 characters, or `null` when there is no
user-role message or its content is empty (JavaScript truthiness). -/
def titleOf (messages : List IncomingMessage) : Option String :=
  match messages.find? (fun m => m.role == "user") with
  | some m => if m.content != "" then some (jsTake m.content 80) else none
  | none => none

/-- The row inserted into `conversations` (route lines 136-144):
`user_id := userId`, `guest_id := userId ? null : guestId ?? null`,
and the derived title. -/
def convRowOf (userId guestId : Option String)
    (messages : List IncomingMessage) : ConversationRow :=
  { user_id := userId
    guest_id := if truthyStr userId then none else guestId
    title := titleOf messages }

/-- The environment of collaborator outcomes for one request: the
identity provider, `Date.now()` at the rate-limit check, the outcome of
the conversation insert (`some id` on success), acceptance of each
best-effort insert, the provider reply, the measured latency and the
random suffix of the client message id. -/
structure Env where
  verifyToken : String → Option String
  now : Nat
  convInsert : Option String
  userMsgInsertOk : Bool
  provider : ProviderReply
  assistantInsertOk : Bool
  metricsInsertOk : Bool
  latencyMs : Nat
  randomSuffix : String

/-- The resolved user identity of a request (route lines 92-105),
`userId` in the handler. -/
def userIdOf (req : Request) (env : Env) : Option String :=
  resolveUserId req.authorization env.verifyToken

/-- The rate-limit client key of a request (route line 107),
`clientKey` in the handler. -/
def clientKeyOf (req : Request) (env : Env) (b : ReqBody) : String :=
  getClientIdentifier req.xForwardedFor (userIdOf req env) b.guestId

/-- The per-tier message ceiling of a request (route lines 115-116),
`maxMessages = isAuthenticated ? MAX_AUTH_MESSAGES : MAX_GUEST_MESSAGES`. -/
def maxMessagesOf (req : Request) (env : Env) : Nat :=
  if truthyStr (userIdOf req env) then MAX_AUTH_MESSAGES else MAX_GUEST_MESSAGES

/-- The rate-limit store after the admission check of a request. -/
def rlStoreOf (req : Request) (env : Env) (b : ReqBody) (store : RateLimitStore) :
    RateLimitStore :=
  (isRateLimited (clientKeyOf req env b) env.now store).2

/-- Persisting the user turn (route lines 156-171): the most recent
user-role message of the submitted history, searched from the end, is
written to `messages` (best-effort); nothing is written when the history
has no user-role message. -/
def userTurnEffects (messages : List IncomingMessage) (env : Env)
    (resolvedConversationId : String) : List Effect :=
  match messages.reverse.find? (fun m => m.role == "user") with
  | some m =>
    [Effect.messageInsert ⟨resolvedConversationId, "user", m.content⟩ env.userMsgInsertOk]
  | none => []

/-- The tail of the `POST` pipeline once the conversation id is resolved
(route lines 156-269): persist the latest user-role message
(best-effort), truncate the history to `maxMessages`, call the provider
with the system instruction prepended, and on success persist the
assistant message and the metrics row (both best-effort) and answer 200. -/
def afterConversation (cfg : Config) (messages : List IncomingMessage) (env : Env)
    (maxMessages : Nat) (resolvedConversationId : String) (store1 : RateLimitStore)
    (effs : List Effect) : Response × RateLimitStore × List Effect :=
  let userEffs := userTurnEffects messages env resolvedConversationId
  let limitedMessages := sliceLast messages maxMessages
  let basetenMessages := systemMessage :: limitedMessages
  let preEffs := effs ++ userEffs ++ [Effect.providerCall basetenMessages]
  match env.provider with
  | ProviderReply.httpError _ =>
    (Response.error 502 "Baseten request failed.", store1, preEffs)
  | ProviderReply.ok content usage =>
    if !(truthyStr content) then
      (Response.error 500 "Unexpected response from Baseten.", store1, preEffs)
    else
      let assistantContent := content.getD ""
      (Response.ok
        { conversationId := resolvedConversationId
          messageId := makeClientMessageId env.randomSuffix
          role := "assistant"
          content := assistantContent },
       store1,
       preEffs ++
         [Effect.messageInsert ⟨resolvedConversationId, "assistant", assistantContent⟩
            env.assistantInsertOk,
          Effect.metricsInsert
            { conversation_id := resolvedConversationId
              provider := "baseten"
              model := cfg.basetenModelSlug.getD ""
              latency_ms := env.latencyMs
              input_tokens := inputTokensOf usage
              output_tokens := outputTokensOf usage
              total_tokens := totalTokensOf usage
              estimated_cost_usd := none } env.metricsInsertOk])

/-- The route handler `POST` (route lines 60-270) as a function of the
server configuration, the inbound request, the environment of
collaborator outcomes, and the current rate-limit store.  Besides the
HTTP response it returns the updated rate-limit store and the ordered
trace of attempted external effects. -/
def POST (cfg : Config) (req : Request) (env : Env) (store : RateLimitStore) :
    Response × RateLimitStore × List Effect :=
  if !(truthyStr cfg.basetenApiKey) || !(truthyStr cfg.basetenModelSlug) then
    (Response.error 500 "Baseten configuration is missing.", store, [])
  else
    match req.body with
    | none => (Response.error 400 "Invalid JSON body.", store, [])
    | some body =>
      match body.messages with
      | none => (Response.error 400 "messages array is required.", store, [])
      | some messages =>
        if messages.length == 0 then
          (Response.error 400 "messages array is required.", store, [])
        else
          if (isRateLimited (clientKeyOf req env body) env.now store).1 then
            (Response.error 429 "Rate limit exceeded. Please wait a moment and try again.",
             rlStoreOf req env body store, [])
          else
            if !(truthyStr (userIdOf req env)) &&
                decide (messages.length > maxMessagesOf req env) then
              (Response.error 403
                "Guest conversations are limited. Sign in with Google to continue this conversation.",
               rlStoreOf req env body store, [])
            else
              if !(truthyStr body.conversationId) then
                match env.convInsert with
                | none =>
                  (Response.error 500 "Failed to create conversation.",
                   rlStoreOf req env body store,
                   [Effect.conversationInsert
                      (convRowOf (userIdOf req env) body.guestId messages) false])
                | some newId =>
                  afterConversation cfg messages env (maxMessagesOf req env) newId
                    (rlStoreOf req env body store)
                    [Effect.conversationInsert
                       (convRowOf (userIdOf req env) body.guestId messages) true]
              else
                afterConversation cfg messages env (maxMessagesOf req env)
                  (body.conversationId.getD "") (rlStoreOf req env body store) []

/-- Iterate `isRateLimited` for one key over a list of request
timestamps, collecting the rejection flags. -/
def runRequests (key : String) (times : List Nat) (store : RateLimitStore) :
    List Bool × RateLimitStore :=
  match times with
  | [] => ([], store)
  | t :: ts =>
    let r := isRateLimited key t store
    let rest := runRequests key ts r.2
    (r.1 :: rest.1, rest.2)

/-! ## Shape lemmas -/

/-- Case analysis of `afterConversation`: provider failure, unparseable
or empty reply, or success, with the exact response and effect trace of
each case. -/
theorem afterConversation_shape (cfg : Config) (msgs : List IncomingMessage)
    (env : Env) (maxM : Nat) (rid : String) (st : RateLimitStore) (effs : List Effect) :
    (∃ status, env.provider = ProviderReply.httpError status ∧
      afterConversation cfg msgs env maxM rid st effs =
        (Response.error 502 "Baseten request failed.", st,
         effs ++ userTurnEffects msgs env rid ++
           [Effect.providerCall (systemMessage :: sliceLast msgs maxM)]))
    ∨ (∃ content usage, env.provider = ProviderReply.ok content usage ∧
        truthyStr content = false ∧
        afterConversation cfg msgs env maxM rid st effs =
          (Response.error 500 "Unexpected response from Baseten.", st,
           effs ++ userTurnEffects msgs env rid ++
             [Effect.providerCall (systemMessage :: sliceLast msgs maxM)]))
    ∨ (∃ content usage, env.provider = ProviderReply.ok content usage ∧
        truthyStr content = true ∧
        afterConversation cfg msgs env maxM rid st effs =
          (Response.ok ⟨rid, makeClientMessageId env.randomSuffix, "assistant", content.getD ""⟩,
           st,
           effs ++ userTurnEffects msgs env rid ++
             [Effect.providerCall (systemMessage :: sliceLast msgs maxM)] ++
             [Effect.messageInsert ⟨rid, "assistant", content.getD ""⟩ env.assistantInsertOk,
              Effect.metricsInsert
                ⟨rid, "baseten", cfg.basetenModelSlug.getD "", env.latencyMs,
                 inputTokensOf usage, outputTokensOf usage, totalTokensOf usage, none⟩
                env.metricsInsertOk])) := by
  unfold afterConversation
  cases hp : env.provider with
  | httpError status => exact Or.inl ⟨status, rfl, by simp⟩
  | ok content usage =>
    by_cases hc : truthyStr content = true
    · exact Or.inr (Or.inr ⟨content, usage, rfl, hc, by simp [hc]⟩)
    · have hc' : truthyStr content = false := by simpa using hc
      exact Or.inr (Or.inl ⟨content, usage, rfl, hc', by simp [hc']⟩)

/-- Case analysis of `POST`: an early exit with an empty effect trace, a
fatal conversation-creation failure, or a handoff to `afterConversation`
with at most the conversation insert already traced. -/
theorem POST_shape (cfg : Config) (req : Request) (env : Env) (store : RateLimitStore) :
    ((POST cfg req env store).2.2 = [] ∧
      ((POST cfg req env store).2.1 = store ∨
        ∃ b, req.body = some b ∧ (POST cfg req env store).2.1 = rlStoreOf req env b store) ∧
      ((POST cfg req env store).1 = Response.error 500 "Baseten configuration is missing." ∨
       (POST cfg req env store).1 = Response.error 400 "Invalid JSON body." ∨
       (POST cfg req env store).1 = Response.error 400 "messages array is required." ∨
       (POST cfg req env store).1 =
         Response.error 429 "Rate limit exceeded. Please wait a moment and try again." ∨
       ((POST cfg req env store).1 =
         Response.error 403
           "Guest conversations are limited. Sign in with Google to continue this conversation." ∧
        truthyStr (userIdOf req env) = false)))
    ∨ (∃ b msgs,
        req.body = some b ∧ b.messages = some msgs ∧
        POST cfg req env store =
          (Response.error 500 "Failed to create conversation.", rlStoreOf req env b store,
           [Effect.conversationInsert (convRowOf (userIdOf req env) b.guestId msgs) false]))
    ∨ (∃ b msgs rid effs,
        req.body = some b ∧ b.messages = some msgs ∧
        ((truthyStr b.conversationId = false ∧ env.convInsert = some rid ∧
          effs = [Effect.conversationInsert (convRowOf (userIdOf req env) b.guestId msgs) true]) ∨
         (truthyStr b.conversationId = true ∧ rid = b.conversationId.getD "" ∧ effs = [])) ∧
        POST cfg req env store =
          afterConversation cfg msgs env (maxMessagesOf req env) rid
            (rlStoreOf req env b store) effs) := by
  unfold POST
  split
  · exact Or.inl ⟨rfl, Or.inl rfl, Or.inl rfl⟩
  · split
    · exact Or.inl ⟨rfl, Or.inl rfl, Or.inr (Or.inl rfl)⟩
    · rename_i body heq
      split
      · exact Or.inl ⟨rfl, Or.inl rfl, Or.inr (Or.inr (Or.inl rfl))⟩
      · rename_i msgs hmeq
        split
        · exact Or.inl ⟨rfl, Or.inl rfl, Or.inr (Or.inr (Or.inl rfl))⟩
        · split
          · exact Or.inl ⟨rfl, Or.inr ⟨body, heq, rfl⟩, Or.inr (Or.inr (Or.inr (Or.inl rfl)))⟩
          · split
            · rename_i hcap
              have hg : truthyStr (userIdOf req env) = false := by
                simp only [Bool.and_eq_true, Bool.not_eq_true'] at hcap
                exact hcap.1
              exact Or.inl ⟨rfl, Or.inr ⟨body, heq, rfl⟩,
                Or.inr (Or.inr (Or.inr (Or.inr ⟨rfl, hg⟩)))⟩
            · split
              · rename_i hcid
                have hcid' : truthyStr body.conversationId = false := by
                  simpa using hcid
                split
                · exact Or.inr (Or.inl ⟨body, msgs, heq, hmeq, rfl⟩)
                · rename_i newId hconv
                  exact Or.inr (Or.inr ⟨body, msgs, newId, _, heq, hmeq,
                    Or.inl ⟨hcid', hconv, rfl⟩, rfl⟩)
              · rename_i hcid
                have hcid' : truthyStr body.conversationId = true := by
                  simpa using hcid
                exact Or.inr (Or.inr
                  ⟨body, msgs, body.conversationId.getD "", [], heq, hmeq,
                   Or.inr ⟨hcid', rfl, rfl⟩, rfl⟩)

/-! ## Theorems -/

/-- **C1** Rate limiting: a first request for a key, or one whose entry's
window has expired (`now − windowStart > 60000` ms), starts a fresh
window with count 1 and is allowed; a request inside the window
increments the count, keeps the window start, and is rejected exactly
when the post-increment count exceeds 20, so of 21 requests inside one
window the 21st is rejected; the window expires 60 s after its start
(shown at the boundary: still limited at `windowStart + 60000`, reset at
`windowStart + 60001`), not after the last request; and a rejected
request is answered with the 429 rate-limit error by `POST`. -/
theorem rate_limit_window_behavior (key : String) (now : Nat) (store : RateLimitStore) :
    (storeGet store key = none →
      isRateLimited key now store = (false, storeSet store key ⟨1, now⟩))
    ∧ (∀ e, storeGet store key = some e → now - e.windowStart > RATE_LIMIT_WINDOW_MS →
      isRateLimited key now store = (false, storeSet store key ⟨1, now⟩))
    ∧ (∀ e, storeGet store key = some e → now - e.windowStart ≤ RATE_LIMIT_WINDOW_MS →
      isRateLimited key now store =
        (decide (e.count + 1 > RATE_LIMIT_MAX_REQUESTS),
         storeSet store key ⟨e.count + 1, e.windowStart⟩))
    ∧ (runRequests "k" (List.replicate 21 0) []).1 = List.replicate 20 false ++ [true]
    ∧ isRateLimited "k" 60000 [("k", ⟨20, 0⟩)] = (true, [("k", ⟨21, 0⟩)])
    ∧ isRateLimited "k" 60001 [("k", ⟨20, 0⟩)] = (false, [("k", ⟨1, 60001⟩)])
    ∧ (∀ cfg req env b msgs,
        truthyStr cfg.basetenApiKey = true → truthyStr cfg.basetenModelSlug = true →
        req.body = some b → b.messages = some msgs → msgs ≠ [] →
        (isRateLimited (clientKeyOf req env b) env.now store).1 = true →
        POST cfg req env store =
          (Response.error 429 "Rate limit exceeded. Please wait a moment and try again.",
           rlStoreOf req env b store, [])) := by
  refine ⟨?_, ?_, ?_, by decide, by decide, by decide, ?_⟩
  · intro h
    simp [isRateLimited, h]
  · intro e he hgt
    simp [isRateLimited, he, hgt]
  · intro e he hle
    simp [isRateLimited, he, Nat.not_lt.mpr hle]
  · intro cfg req env b msgs hk hm hb hmsgs hne hlim
    unfold POST
    simp only [hk, hm, hb, hmsgs, Bool.not_true, Bool.or_self, Bool.false_eq_true, if_false]
    rw [if_neg (by simp [List.length_eq_zero, hne]), if_pos hlim]

/-- Witness for C1: a first request from a fresh key is allowed and
creates the entry `{count := 1, windowStart := now}`. -/
theorem rate_limit_window_behavior_witness :
    isRateLimited "a" 5 [] = (false, storeSet [] "a" ⟨1, 5⟩) :=
  (rate_limit_window_behavior "a" 5 []).1 rfl

/-- `userTurnEffects` never contains a provider call. -/
theorem providerCall_not_mem_userTurnEffects (msgs : List IncomingMessage) (env : Env)
    (rid : String) (p : List IncomingMessage) :
    Effect.providerCall p ∉ userTurnEffects msgs env rid := by
  unfold userTurnEffects
  cases msgs.reverse.find? (fun m => m.role == "user") <;> simp

/-- `userTurnEffects` never contains a conversation insert. -/
theorem conversationInsert_not_mem_userTurnEffects (msgs : List IncomingMessage) (env : Env)
    (rid : String) (row : ConversationRow) (ok : Bool) :
    Effect.conversationInsert row ok ∉ userTurnEffects msgs env rid := by
  unfold userTurnEffects
  cases msgs.reverse.find? (fun m => m.role == "user") <;> simp

/-- `userTurnEffects` never contains a metrics insert. -/
theorem metricsInsert_not_mem_userTurnEffects (msgs : List IncomingMessage) (env : Env)
    (rid : String) (row : MetricsRow) (ok : Bool) :
    Effect.metricsInsert row ok ∉ userTurnEffects msgs env rid := by
  unfold userTurnEffects
  cases msgs.reverse.find? (fun m => m.role == "user") <;> simp

/-- A message insert in `userTurnEffects` is the most recent user-role
message of the submitted history. -/
theorem messageInsert_mem_userTurnEffects (msgs : List IncomingMessage) (env : Env)
    (rid : String) (row : MessageRow) (ok : Bool)
    (h : Effect.messageInsert row ok ∈ userTurnEffects msgs env rid) :
    ∃ m, msgs.reverse.find? (fun m => m.role == "user") = some m ∧
      row = ⟨rid, "user", m.content⟩ := by
  unfold userTurnEffects at h
  split at h
  · rename_i m hf
    simp only [List.mem_singleton, Effect.messageInsert.injEq] at h
    exact ⟨m, hf, h.1⟩
  · simp at h

/-- `afterConversation` never answers 403. -/
theorem afterConversation_ne403 (cfg : Config) (msgs : List IncomingMessage) (env : Env)
    (maxM : Nat) (rid : String) (st : RateLimitStore) (effs : List Effect) (s : String) :
    (afterConversation cfg msgs env maxM rid st effs).1 ≠ Response.error 403 s := by
  rcases afterConversation_shape cfg msgs env maxM rid st effs with
    ⟨s0, _, heq⟩ | ⟨c, u, _, _, heq⟩ | ⟨c, u, _, _, heq⟩ <;> rw [heq] <;> simp

/-- The provider call traced by `afterConversation` carries the system
instruction followed by the truncated history. -/
theorem afterConversation_providerCall_payload (cfg : Config) (msgs : List IncomingMessage)
    (env : Env) (maxM : Nat) (rid : String) (st : RateLimitStore) (effs : List Effect)
    (p : List IncomingMessage)
    (hmem : Effect.providerCall p ∈ (afterConversation cfg msgs env maxM rid st effs).2.2)
    (heffs : Effect.providerCall p ∉ effs) :
    p = systemMessage :: sliceLast msgs maxM := by
  rcases afterConversation_shape cfg msgs env maxM rid st effs with
    ⟨s0, _, heq⟩ | ⟨c, u, _, _, heq⟩ | ⟨c, u, _, _, heq⟩ <;>
    rw [heq] at hmem <;>
    simp only [List.mem_append, List.mem_singleton, List.mem_cons, List.not_mem_nil,
      Effect.providerCall.injEq, or_false, false_or] at hmem <;>
    [rcases hmem with (h | h) | h; rcases hmem with (h | h) | h;
     rcases hmem with ((h | h) | h) | h] <;>
    first
    | exact absurd h heffs
    | exact absurd h (providerCall_not_mem_userTurnEffects msgs env rid p)
    | exact h
    | simp at h

/-- Concrete fixtures for the witnesses. -/
def cfgW : Config := ⟨some "key", some "model"⟩

/-- An environment where identity verification fails for every token and
every collaborator succeeds. -/
def envW : Env :=
  ⟨fun _ => none, 1000, some "conv-1", true,
   ProviderReply.ok (some "Hi!") emptyUsage, true, true, 42, "r"⟩

/-- An environment where the token `tok` verifies to user `u1`. -/
def envAuthW : Env :=
  ⟨fun t => if t == "tok" then some "u1" else none, 1000, some "conv-1", true,
   ProviderReply.ok (some "Hi!") emptyUsage, true, true, 42, "r"⟩

/-- A guest request with 13 submitted messages. -/
def reqC2 : Request :=
  ⟨none, none, some ⟨some (List.replicate 13 ⟨"user", "x"⟩), none, some "g1"⟩⟩

/-- An authenticated request with one user message. -/
def reqAuthW : Request :=
  ⟨none, some "Bearer tok", some ⟨some [⟨"user", "Hello"⟩], none, none⟩⟩

/-- **C2** Guest tier cap: an unauthenticated request that passes
configuration, parsing, validation and the rate limit, and whose
submitted history is longer than 12, is rejected with 403, and the
effect trace is empty — no conversation, message, metrics or provider
call is attempted; the request is not truncated and continued. -/
theorem guest_cap_403_no_writes
    (cfg : Config) (req : Request) (env : Env) (store : RateLimitStore)
    (b : ReqBody) (msgs : List IncomingMessage)
    (hk : truthyStr cfg.basetenApiKey = true)
    (hm : truthyStr cfg.basetenModelSlug = true)
    (hb : req.body = some b)
    (hmsgs : b.messages = some msgs)
    (hguest : truthyStr (userIdOf req env) = false)
    (hnl : (isRateLimited (clientKeyOf req env b) env.now store).1 = false)
    (hlen : msgs.length > MAX_GUEST_MESSAGES) :
    POST cfg req env store =
      (Response.error 403
        "Guest conversations are limited. Sign in with Google to continue this conversation.",
       rlStoreOf req env b store, []) := by
  have hlen12 : 12 < msgs.length := hlen
  unfold POST
  simp only [hk, hm, hb, hmsgs, Bool.not_true, Bool.or_self, Bool.false_eq_true, if_false]
  rw [if_neg (by simp only [beq_iff_eq]; omega)]
  rw [if_neg (by simp [hnl])]
  rw [if_pos (by simp only [hguest, maxMessagesOf, Bool.not_false, Bool.true_and,
        Bool.false_eq_true, if_false, decide_eq_true_eq, MAX_GUEST_MESSAGES]; omega)]

/-- Witness for C2: the guest request with 13 messages is answered 403
with an empty effect trace. -/
theorem guest_cap_403_no_writes_witness :
    POST cfgW reqC2 envW [] =
      (Response.error 403
        "Guest conversations are limited. Sign in with Google to continue this conversation.",
       rlStoreOf reqC2 envW ⟨some (List.replicate 13 ⟨"user", "x"⟩), none, some "g1"⟩ [], []) :=
  guest_cap_403_no_writes cfgW reqC2 envW []
    ⟨some (List.replicate 13 ⟨"user", "x"⟩), none, some "g1"⟩
    (List.replicate 13 ⟨"user", "x"⟩)
    (by decide) (by decide) rfl rfl (by decide) (by decide) (by decide)

/-- **C3** Authenticated tier: an authenticated request is never answered
403 (in particular not for exceeding 40 messages), and whenever the
provider is called, the payload is exactly the fixed system instruction
followed by the last 40 entries of the submitted history. -/
theorem auth_no_403_and_truncated_history
    (cfg : Config) (req : Request) (env : Env) (store : RateLimitStore)
    (b : ReqBody) (msgs : List IncomingMessage)
    (hb : req.body = some b) (hmsgs : b.messages = some msgs)
    (hauth : truthyStr (userIdOf req env) = true) :
    (∀ s, (POST cfg req env store).1 ≠ Response.error 403 s)
    ∧ (∀ p, Effect.providerCall p ∈ (POST cfg req env store).2.2 →
        p = systemMessage :: sliceLast msgs MAX_AUTH_MESSAGES) := by
  constructor
  · intro s
    rcases POST_shape cfg req env store with ⟨_, _, hresp⟩ |
      ⟨b', msgs', _, _, heq⟩ | ⟨b', msgs', rid, effs, _, _, _, heq⟩
    · rcases hresp with h | h | h | h | ⟨h, hg⟩
      · rw [h]; simp
      · rw [h]; simp
      · rw [h]; simp
      · rw [h]; simp
      · rw [hauth] at hg; exact absurd hg (by simp)
    · rw [heq]; simp
    · rw [heq]; exact afterConversation_ne403 cfg msgs' env (maxMessagesOf req env) rid
        (rlStoreOf req env b' store) effs s
  · intro p hp
    rcases POST_shape cfg req env store with ⟨hempty, _, _⟩ |
      ⟨b', msgs', hb', hmsgs', heq⟩ | ⟨b', msgs', rid, effs, hb', hmsgs', heffs, heq⟩
    · rw [hempty] at hp; simp at hp
    · rw [heq] at hp; simp at hp
    · have hbb : b = b' := Option.some_inj.mp (hb.symm.trans hb')
      subst hbb
      have hmm : msgs = msgs' := Option.some_inj.mp (hmsgs.symm.trans hmsgs')
      subst hmm
      rw [heq] at hp
      have hpay := afterConversation_providerCall_payload cfg msgs env (maxMessagesOf req env)
        rid (rlStoreOf req env b store) effs p hp
        (by rcases heffs with ⟨_, _, h⟩ | ⟨_, _, h⟩ <;> rw [h] <;> simp)
      rw [hpay]
      simp [maxMessagesOf, hauth]

/-- Witness for C3: the authenticated request is not answered 403. -/
theorem auth_no_403_and_truncated_history_witness :
    (POST cfgW reqAuthW envAuthW []).1 ≠ Response.error 403 "x" :=
  (auth_no_403_and_truncated_history cfgW reqAuthW envAuthW []
    ⟨some [⟨"user", "Hello"⟩], none, none⟩ [⟨"user", "Hello"⟩]
    rfl rfl (by decide)).1 "x"

/-- `afterConversation` adds no conversation insert: one in its trace
was already in the accumulator. -/
theorem afterConversation_conversationInsert_mem (cfg : Config)
    (msgs : List IncomingMessage) (env : Env) (maxM : Nat) (rid : String)
    (st : RateLimitStore) (effs : List Effect) (row : ConversationRow) (ok : Bool)
    (h : Effect.conversationInsert row ok ∈ (afterConversation cfg msgs env maxM rid st effs).2.2) :
    Effect.conversationInsert row ok ∈ effs := by
  rcases afterConversation_shape cfg msgs env maxM rid st effs with
    ⟨s0, _, heq⟩ | ⟨c, u, _, _, heq⟩ | ⟨c, u, _, _, heq⟩ <;>
    rw [heq] at h <;>
    simp only [List.mem_append, List.mem_singleton, List.mem_cons, List.not_mem_nil,
      or_false, false_or] at h <;>
    [rcases h with (h | h) | h; rcases h with (h | h) | h;
     rcases h with ((h | h) | h) | h] <;>
    first
    | exact h
    | exact absurd h (conversationInsert_not_mem_userTurnEffects msgs env rid row ok)
    | simp at h

/-- A message insert traced by `afterConversation` was in the
accumulator, is the user-turn write, or is the assistant-turn write. -/
theorem afterConversation_messageInsert_mem (cfg : Config)
    (msgs : List IncomingMessage) (env : Env) (maxM : Nat) (rid : String)
    (st : RateLimitStore) (effs : List Effect) (row : MessageRow) (ok : Bool)
    (h : Effect.messageInsert row ok ∈ (afterConversation cfg msgs env maxM rid st effs).2.2) :
    Effect.messageInsert row ok ∈ effs
    ∨ Effect.messageInsert row ok ∈ userTurnEffects msgs env rid
    ∨ row.role = "assistant" := by
  rcases afterConversation_shape cfg msgs env maxM rid st effs with
    ⟨s0, _, heq⟩ | ⟨c, u, _, _, heq⟩ | ⟨c, u, _, _, heq⟩ <;>
    rw [heq] at h <;>
    simp only [List.mem_append, List.mem_singleton, List.mem_cons, List.not_mem_nil,
      or_false, false_or] at h
  · rcases h with (h | h) | h
    · exact Or.inl h
    · exact Or.inr (Or.inl h)
    · simp at h
  · rcases h with (h | h) | h
    · exact Or.inl h
    · exact Or.inr (Or.inl h)
    · simp at h
  · rcases h with ((h | h) | h) | h | h
    · exact Or.inl h
    · exact Or.inr (Or.inl h)
    · simp at h
    · rw [show row = (⟨rid, "assistant", c.getD ""⟩ : MessageRow) by
        simpa using congrArg (fun e => match e with
          | Effect.messageInsert r _ => r
          | _ => row) h]
      exact Or.inr (Or.inr rfl)
    · simp at h

/-- A metrics insert traced by `afterConversation` was in the
accumulator or is the row built from the successful provider reply. -/
theorem afterConversation_metricsInsert_mem (cfg : Config)
    (msgs : List IncomingMessage) (env : Env) (maxM : Nat) (rid : String)
    (st : RateLimitStore) (effs : List Effect) (row : MetricsRow) (ok : Bool)
    (h : Effect.metricsInsert row ok ∈ (afterConversation cfg msgs env maxM rid st effs).2.2) :
    Effect.metricsInsert row ok ∈ effs
    ∨ ∃ content usage, env.provider = ProviderReply.ok content usage ∧
        row = ⟨rid, "baseten", cfg.basetenModelSlug.getD "", env.latencyMs,
               inputTokensOf usage, outputTokensOf usage, totalTokensOf usage, none⟩ ∧
        ok = env.metricsInsertOk := by
  rcases afterConversation_shape cfg msgs env maxM rid st effs with
    ⟨s0, hp, heq⟩ | ⟨c, u, hp, _, heq⟩ | ⟨c, u, hp, _, heq⟩ <;>
    rw [heq] at h <;>
    simp only [List.mem_append, List.mem_singleton, List.mem_cons, List.not_mem_nil,
      or_false, false_or] at h
  · rcases h with (h | h) | h
    · exact Or.inl h
    · exact absurd h (metricsInsert_not_mem_userTurnEffects msgs env rid row ok)
    · simp at h
  · rcases h with (h | h) | h
    · exact Or.inl h
    · exact absurd h (metricsInsert_not_mem_userTurnEffects msgs env rid row ok)
    · simp at h
  · rcases h with ((h | h) | h) | h | h
    · exact Or.inl h
    · exact absurd h (metricsInsert_not_mem_userTurnEffects msgs env rid row ok)
    · simp at h
    · simp at h
    · simp only [Effect.metricsInsert.injEq] at h
      exact Or.inr ⟨c, u, hp, h.1, h.2⟩

/-- Every conversation insert traced by `POST` carries exactly the row
built by `convRowOf` from the resolved identity, the request's guest id
and the submitted messages. -/
theorem POST_conversationInsert_mem (cfg : Config) (req : Request) (env : Env)
    (store : RateLimitStore) (row : ConversationRow) (ok : Bool)
    (hmem : Effect.conversationInsert row ok ∈ (POST cfg req env store).2.2) :
    ∃ b msgs, req.body = some b ∧ b.messages = some msgs ∧
      row = convRowOf (userIdOf req env) b.guestId msgs := by
  rcases POST_shape cfg req env store with ⟨hempty, _, _⟩ |
    ⟨b, msgs, hb, hmsgs, heq⟩ | ⟨b, msgs, rid, effs, hb, hmsgs, heffs, heq⟩
  · rw [hempty] at hmem; simp at hmem
  · rw [heq] at hmem
    simp only [List.mem_singleton, Effect.conversationInsert.injEq] at hmem
    exact ⟨b, msgs, hb, hmsgs, hmem.1⟩
  · rw [heq] at hmem
    have h := afterConversation_conversationInsert_mem cfg msgs env (maxMessagesOf req env)
      rid (rlStoreOf req env b store) effs row ok hmem
    rcases heffs with ⟨_, _, he⟩ | ⟨_, _, he⟩ <;> rw [he] at h
    · simp only [List.mem_singleton, Effect.conversationInsert.injEq] at h
      exact ⟨b, msgs, hb, hmsgs, h.1⟩
    · simp at h

/-- When the identity provider only issues nonempty user ids, the
truthiness of the resolved identity is exactly its presence. -/
theorem truthyStr_userIdOf (req : Request) (env : Env)
    (hv : ∀ t u, env.verifyToken t = some u → u ≠ "") :
    truthyStr (userIdOf req env) = (userIdOf req env).isSome := by
  unfold userIdOf resolveUserId
  cases req.authorization with
  | none => rfl
  | some h =>
    dsimp only
    split
    · split
      · cases hvt : env.verifyToken (jsTrim (jsDrop h 7)) with
        | none => rfl
        | some u =>
          simp only [truthyStr, Option.isSome_some, bne_iff_ne, ne_eq,
            decide_eq_true_eq]
          exact hv _ _ hvt
      · rfl
    · rfl

/-- An anonymous request with no guest id. -/
def reqAnonW : Request := ⟨none, none, some ⟨some [⟨"user", "Hello"⟩], none, none⟩⟩

/-- **C4** (counterexample) For an anonymous request with no guest id,
the newly created conversation is inserted with `user_id = null` *and*
`guest_id = null` — neither of the two owners is set, refuting "exactly
one of {user id, guest id} is set". -/
theorem conversation_owner_counterexample :
    Effect.conversationInsert ⟨none, none, some "Hello"⟩ true
        ∈ (POST cfgW reqAnonW envW []).2.2
    ∧ (⟨none, none, some "Hello"⟩ : ConversationRow).user_id = none
    ∧ (⟨none, none, some "Hello"⟩ : ConversationRow).guest_id = none := by
  decide

/-- **C4** (amended) For every newly created conversation, at most one of
{user id, guest id} is set in the inserted row: the user id is set
exactly when identity resolution succeeded, the guest id is set exactly
when identity resolution failed and the request supplied a guest id, and
both are null for an anonymous request without a guest id.  (The
identity provider is assumed to issue nonempty user ids.) -/
theorem conversation_owner_amended (cfg : Config) (req : Request) (env : Env)
    (store : RateLimitStore) (b : ReqBody) (row : ConversationRow) (ok : Bool)
    (hb : req.body = some b)
    (hv : ∀ t u, env.verifyToken t = some u → u ≠ "")
    (hmem : Effect.conversationInsert row ok ∈ (POST cfg req env store).2.2) :
    row.user_id = userIdOf req env
    ∧ row.guest_id = (if (userIdOf req env).isSome then none else b.guestId)
    ∧ ¬(row.user_id.isSome = true ∧ row.guest_id.isSome = true) := by
  obtain ⟨b', msgs, hb', hmsgs, hrow⟩ :=
    POST_conversationInsert_mem cfg req env store row ok hmem
  have hbb : b = b' := Option.some_inj.mp (hb.symm.trans hb')
  subst hbb
  rw [hrow]
  unfold convRowOf
  rw [truthyStr_userIdOf req env hv]
  refine ⟨rfl, rfl, ?_⟩
  cases huid : (userIdOf req env) with
  | none => simp [huid]
  | some u => simp [huid]

/-- Witness for C4 (amended): for the anonymous request without a guest
id, the inserted row has no user id, no guest id, and not both owners
set. -/
theorem conversation_owner_amended_witness :
    (⟨none, none, some "Hello"⟩ : ConversationRow).user_id = userIdOf reqAnonW envW
    ∧ (⟨none, none, some "Hello"⟩ : ConversationRow).guest_id =
        (if (userIdOf reqAnonW envW).isSome then none else
          (⟨some [⟨"user", "Hello"⟩], none, none⟩ : ReqBody).guestId)
    ∧ ¬((⟨none, none, some "Hello"⟩ : ConversationRow).user_id.isSome = true
        ∧ (⟨none, none, some "Hello"⟩ : ConversationRow).guest_id.isSome = true) :=
  conversation_owner_amended cfgW reqAnonW envW []
    ⟨some [⟨"user", "Hello"⟩], none, none⟩ ⟨none, none, some "Hello"⟩ true
    rfl (fun t u h => by simp [envW] at h) (by decide)

/-- Every metrics insert traced by `POST` carries the token triple
extracted from the successful provider reply. -/
theorem POST_metricsInsert_mem (cfg : Config) (req : Request) (env : Env)
    (store : RateLimitStore) (row : MetricsRow) (ok : Bool)
    (hmem : Effect.metricsInsert row ok ∈ (POST cfg req env store).2.2) :
    ∃ content usage rid, env.provider = ProviderReply.ok content usage ∧
      row = ⟨rid, "baseten", cfg.basetenModelSlug.getD "", env.latencyMs,
             inputTokensOf usage, outputTokensOf usage, totalTokensOf usage, none⟩ := by
  rcases POST_shape cfg req env store with ⟨hempty, _, _⟩ |
    ⟨b, msgs, hb, hmsgs, heq⟩ | ⟨b, msgs, rid, effs, hb, hmsgs, heffs, heq⟩
  · rw [hempty] at hmem; simp at hmem
  · rw [heq] at hmem; simp at hmem
  · rw [heq] at hmem
    have h := afterConversation_metricsInsert_mem cfg msgs env (maxMessagesOf req env)
      rid (rlStoreOf req env b store) effs row ok hmem
    rcases h with h | ⟨c, u, hp, hrow, _⟩
    · rcases heffs with ⟨_, _, he⟩ | ⟨_, _, he⟩ <;> rw [he] at h <;> simp at h
    · exact ⟨c, u, rid, hp, hrow⟩

/-- A usage object with a present-but-zero input part. -/
def usageZeroIn : Usage := ⟨some 0, none, none, some 5, none, none, none⟩

/-- **C5** (counterexample) With provider usage
`{prompt_tokens: 0, completion_tokens: 5}` both the input part and the
output part are present and the total is omitted, yet the recorded total
is `null`, not `0 + 5`: the JavaScript truthiness test
`inputTokens && outputTokens` treats the present value `0` like an
absent one. -/
theorem token_accounting_counterexample :
    inputTokensOf usageZeroIn = some 0
    ∧ outputTokensOf usageZeroIn = some 5
    ∧ usageZeroIn.total_tokens = none
    ∧ totalTokensOf usageZeroIn = none
    ∧ ¬ totalTokensOf usageZeroIn = some (0 + 5) := by
  decide

/-- **C5** (amended) Token accounting: the recorded token triple
normalises prompt/completion, input/output and request/response provider
field names into {input, output, total}; when the provider omits the
total and both the input and output parts are present *and nonzero*, the
recorded total is their sum (prompt 10 and completion 5 yield 15); a
provider-reported total is used as is; with no usage fields at all, all
three token fields are recorded absent, not zero; and every metrics row
written by the handler carries exactly this extracted triple. -/
theorem token_accounting_amended :
    (∀ u i o, u.total_tokens = none → inputTokensOf u = some i →
      outputTokensOf u = some o → i ≠ 0 → o ≠ 0 →
      totalTokensOf u = some (i + o))
    ∧ (∀ u t, u.total_tokens = some t → totalTokensOf u = some t)
    ∧ (inputTokensOf emptyUsage = none ∧ outputTokensOf emptyUsage = none ∧
        totalTokensOf emptyUsage = none)
    ∧ totalTokensOf ⟨some 10, none, none, some 5, none, none, none⟩ = some 15
    ∧ (∀ n, inputTokensOf ⟨none, some n, none, none, none, none, none⟩ = some n)
    ∧ (∀ n, inputTokensOf ⟨none, none, some n, none, none, none, none⟩ = some n)
    ∧ (∀ n, outputTokensOf ⟨none, none, none, none, some n, none, none⟩ = some n)
    ∧ (∀ n, outputTokensOf ⟨none, none, none, none, none, some n, none⟩ = some n)
    ∧ (∀ cfg req env store row ok,
        Effect.metricsInsert row ok ∈ (POST cfg req env store).2.2 →
        ∃ content usage, env.provider = ProviderReply.ok content usage ∧
          row.input_tokens = inputTokensOf usage ∧
          row.output_tokens = outputTokensOf usage ∧
          row.total_tokens = totalTokensOf usage) := by
  refine ⟨?_, ?_, by decide, by decide, fun n => rfl, fun n => rfl, fun n => rfl,
    fun n => rfl, ?_⟩
  · intro u i o ht hi ho hi0 ho0
    simp [totalTokensOf, ht, hi, ho, truthyNat, hi0, ho0]
  · intro u t ht
    simp [totalTokensOf, ht]
  · intro cfg req env store row ok hmem
    obtain ⟨c, u, rid, hp, hrow⟩ := POST_metricsInsert_mem cfg req env store row ok hmem
    rw [hrow]
    exact ⟨c, u, hp, rfl, rfl, rfl⟩

/-- Witness for C5 (amended): prompt 10 and completion 5 with no
reported total are recorded with total 15. -/
theorem token_accounting_amended_witness :
    totalTokensOf ⟨some 10, none, none, some 5, none, none, none⟩ = some (10 + 5) :=
  token_accounting_amended.1 ⟨some 10, none, none, some 5, none, none, none⟩ 10 5
    rfl rfl rfl (by decide) (by decide)

/-- A request that supplies an existing conversation id. -/
def reqC6 : Request := ⟨none, none, some ⟨some [⟨"user", "Hello"⟩], some "abc", none⟩⟩

/-- **C6** (counterexample) For a successful request that supplied the
conversation id `abc`, no conversation is created in the request, yet
the 200 response still carries `conversationId = "abc"` — the
already-known, caller-supplied id *is* re-sent, refuting "only if the
conversation was newly created". -/
theorem success_response_counterexample :
    (POST cfgW reqC6 envW []).1 =
      Response.ok ⟨"abc", "assistant-r", "assistant", "Hi!"⟩
    ∧ ((POST cfgW reqC6 envW []).2.2.all fun e =>
        match e with
        | Effect.conversationInsert _ _ => false
        | _ => true) = true := by
  decide

/-- **C6** (amended) On the success path the endpoint always returns the
resolved conversation id — the newly created one when none was supplied,
and the caller-supplied one re-sent otherwise — together with the
freshly minted client-facing message id and the role/content of the
assistant turn. -/
theorem success_response_amended (cfg : Config) (req : Request) (env : Env)
    (store : RateLimitStore) (b : ReqBody) (body : SuccessBody)
    (hb : req.body = some b)
    (hok : (POST cfg req env store).1 = Response.ok body) :
    body.role = "assistant"
    ∧ body.messageId = makeClientMessageId env.randomSuffix
    ∧ (∃ u, env.provider = ProviderReply.ok (some body.content) u)
    ∧ (if truthyStr b.conversationId then b.conversationId = some body.conversationId
       else env.convInsert = some body.conversationId) := by
  rcases POST_shape cfg req env store with ⟨_, _, hresp⟩ |
    ⟨b', msgs', _, _, heq⟩ | ⟨b', msgs', rid, effs, hb', hmsgs', heffs, heq⟩
  · rcases hresp with h | h | h | h | ⟨h, _⟩ <;> rw [h] at hok <;> simp at hok
  · rw [heq] at hok; simp at hok
  · have hbb : b = b' := Option.some_inj.mp (hb.symm.trans hb')
    subst hbb
    rw [heq] at hok
    rcases afterConversation_shape cfg msgs' env (maxMessagesOf req env) rid
        (rlStoreOf req env b store) effs with
      ⟨s0, _, haeq⟩ | ⟨c, u, _, _, haeq⟩ | ⟨c, u, hp, hc, haeq⟩
    · rw [haeq] at hok; simp at hok
    · rw [haeq] at hok; simp at hok
    · rw [haeq] at hok
      simp only [Response.ok.injEq] at hok
      rw [← hok]
      cases c with
      | none => simp [truthyStr] at hc
      | some s =>
        refine ⟨rfl, rfl, ⟨u, by simpa using hp⟩, ?_⟩
        rcases heffs with ⟨hcid, hins, _⟩ | ⟨hcid, hrid, _⟩
        · rw [hcid]
          simpa using hins
        · rw [hcid]
          simp only [if_true]
          cases hbc : b.conversationId with
          | none => rw [hbc] at hcid; simp [truthyStr] at hcid
          | some cid => rw [hbc] at hrid; simpa using hrid.symm

/-- Witness for C6 (amended): the caller-supplied id `abc` is returned
in the successful response together with the fresh message id and the
assistant turn. -/
theorem success_response_amended_witness :
    (⟨"abc", "assistant-r", "assistant", "Hi!"⟩ : SuccessBody).role = "assistant"
    ∧ (⟨"abc", "assistant-r", "assistant", "Hi!"⟩ : SuccessBody).messageId =
        makeClientMessageId envW.randomSuffix
    ∧ (∃ u, envW.provider =
        ProviderReply.ok (some (⟨"abc", "assistant-r", "assistant", "Hi!"⟩ :
          SuccessBody).content) u)
    ∧ (if truthyStr (⟨some [⟨"user", "Hello"⟩], some "abc", none⟩ : ReqBody).conversationId
       then (⟨some [⟨"user", "Hello"⟩], some "abc", none⟩ : ReqBody).conversationId =
         some (⟨"abc", "assistant-r", "assistant", "Hi!"⟩ : SuccessBody).conversationId
       else envW.convInsert =
         some (⟨"abc", "assistant-r", "assistant", "Hi!"⟩ : SuccessBody).conversationId) :=
  success_response_amended cfgW reqC6 envW []
    ⟨some [⟨"user", "Hello"⟩], some "abc", none⟩
    ⟨"abc", "assistant-r", "assistant", "Hi!"⟩ rfl (by decide)

/-- Forget whether the store accepted a traced write, keeping the
attempted row: two traces equal under `eraseOk` attempt exactly the same
writes in the same order. -/
def eraseOk : Effect → Effect
  | Effect.conversationInsert row _ => Effect.conversationInsert row true
  | Effect.messageInsert row _ => Effect.messageInsert row true
  | Effect.providerCall p => Effect.providerCall p
  | Effect.metricsInsert row _ => Effect.metricsInsert row true

/-- `afterConversation` under two environments that differ only in the
acceptance of the assistant-message insert and of the metrics insert:
same response, same attempted effects. -/
theorem afterConversation_flags (cfg : Config) (msgs : List IncomingMessage)
    (vt : String → Option String) (n : Nat) (ci : Option String) (um : Bool)
    (pr : ProviderReply) (ai mi ai' mi' : Bool) (lm : Nat) (rs : String)
    (maxM : Nat) (rid : String) (st : RateLimitStore) (effs : List Effect) :
    ((afterConversation cfg msgs ⟨vt, n, ci, um, pr, ai', mi', lm, rs⟩ maxM rid st effs).1 =
      (afterConversation cfg msgs ⟨vt, n, ci, um, pr, ai, mi, lm, rs⟩ maxM rid st effs).1)
    ∧ ((afterConversation cfg msgs ⟨vt, n, ci, um, pr, ai', mi', lm, rs⟩ maxM rid st effs).2.2.map
        eraseOk =
       (afterConversation cfg msgs ⟨vt, n, ci, um, pr, ai, mi, lm, rs⟩ maxM rid st effs).2.2.map
        eraseOk) := by
  have hue : userTurnEffects msgs ⟨vt, n, ci, um, pr, ai', mi', lm, rs⟩ rid =
      userTurnEffects msgs ⟨vt, n, ci, um, pr, ai, mi, lm, rs⟩ rid := rfl
  unfold afterConversation
  rw [hue]
  dsimp only
  cases pr with
  | httpError s => exact ⟨rfl, rfl⟩
  | ok content usage =>
    by_cases hc : truthyStr content = true
    · simp [hc, eraseOk]
    · simp only [hc, Bool.not_false, Bool.false_eq_true, if_false, Bool.not_eq_true] at *
      simp [hc]

/-- **C7** Non-fatal write isolation: whatever the store answers to the
assistant-message insert and to the metrics insert (in particular when it
rejects either or both), the HTTP response is unchanged — a success stays
the identical 200 with the assistant content — and the attempted effects
(conversation insert, user and assistant message inserts, provider call,
metrics insert) are the same rows in the same order; in particular a
failed assistant insert never prevents the metrics insert from being
attempted, and vice versa. -/
theorem best_effort_write_isolation (cfg : Config) (req : Request) (store : RateLimitStore)
    (vt : String → Option String) (n : Nat) (ci : Option String) (um : Bool)
    (pr : ProviderReply) (ai mi ai' mi' : Bool) (lm : Nat) (rs : String) :
    ((POST cfg req ⟨vt, n, ci, um, pr, ai', mi', lm, rs⟩ store).1 =
      (POST cfg req ⟨vt, n, ci, um, pr, ai, mi, lm, rs⟩ store).1)
    ∧ ((POST cfg req ⟨vt, n, ci, um, pr, ai', mi', lm, rs⟩ store).2.2.map eraseOk =
       (POST cfg req ⟨vt, n, ci, um, pr, ai, mi, lm, rs⟩ store).2.2.map eraseOk)
    ∧ (POST cfgW reqAnonW
        ⟨fun _ => none, 1000, some "conv-1", true,
         ProviderReply.ok (some "Hi!") emptyUsage, false, false, 42, "r"⟩ []).1 =
      Response.ok ⟨"conv-1", "assistant-r", "assistant", "Hi!"⟩ := by
  have hmain :
      ((POST cfg req ⟨vt, n, ci, um, pr, ai', mi', lm, rs⟩ store).1 =
        (POST cfg req ⟨vt, n, ci, um, pr, ai, mi, lm, rs⟩ store).1)
      ∧ ((POST cfg req ⟨vt, n, ci, um, pr, ai', mi', lm, rs⟩ store).2.2.map eraseOk =
         (POST cfg req ⟨vt, n, ci, um, pr, ai, mi, lm, rs⟩ store).2.2.map eraseOk) := by
    unfold POST
    split
    · exact ⟨rfl, rfl⟩
    · split
      · exact ⟨rfl, rfl⟩
      · rename_i body heq
        split
        · exact ⟨rfl, rfl⟩
        · rename_i msgs hmeq
          split
          · exact ⟨rfl, rfl⟩
          · have hk : clientKeyOf req ⟨vt, n, ci, um, pr, ai', mi', lm, rs⟩ body =
                clientKeyOf req ⟨vt, n, ci, um, pr, ai, mi, lm, rs⟩ body := rfl
            have hst : rlStoreOf req ⟨vt, n, ci, um, pr, ai', mi', lm, rs⟩ body store =
                rlStoreOf req ⟨vt, n, ci, um, pr, ai, mi, lm, rs⟩ body store := rfl
            have hmax : maxMessagesOf req ⟨vt, n, ci, um, pr, ai', mi', lm, rs⟩ =
                maxMessagesOf req ⟨vt, n, ci, um, pr, ai, mi, lm, rs⟩ := rfl
            have huid : userIdOf req ⟨vt, n, ci, um, pr, ai', mi', lm, rs⟩ =
                userIdOf req ⟨vt, n, ci, um, pr, ai, mi, lm, rs⟩ := rfl
            rw [hk, hst, hmax, huid]
            dsimp only
            split
            · exact ⟨rfl, rfl⟩
            · split
              · exact ⟨rfl, rfl⟩
              · split
                · split
                  · exact ⟨rfl, by simp [eraseOk]⟩
                  · exact afterConversation_flags cfg msgs vt n _ um pr ai mi ai' mi' lm rs _ _ _ _
                · exact afterConversation_flags cfg msgs vt n _ um pr ai mi ai' mi' lm rs _ _ _ _
  exact ⟨hmain.1, hmain.2, by decide⟩

/-- A request with a bearer token the identity provider rejects. -/
def reqBadAuthW : Request :=
  ⟨none, some "Bearer bad", some ⟨some [⟨"user", "Hello"⟩], none, none⟩⟩

/-- **C8** Identity resolution degradation: whenever bearer-token
verification fails (malformed header, empty token, or rejection by the
identity provider — i.e. `resolveUserId` yields no identity), the whole
request behaves exactly as if no authorization header had been sent: the
same response, the same rate-limit store and the same effects.  In
particular verification failure is never a hard failure. -/
theorem identity_failure_degrades (cfg : Config) (req : Request) (env : Env)
    (store : RateLimitStore)
    (hfail : resolveUserId req.authorization env.verifyToken = none) :
    POST cfg req env store =
      POST cfg ⟨req.xForwardedFor, none, req.body⟩ env store := by
  obtain ⟨xff, auth, rbody⟩ := req
  have h2 : resolveUserId none env.verifyToken = none := rfl
  unfold POST
  simp only [clientKeyOf, maxMessagesOf, rlStoreOf, userIdOf] at *
  simp only [hfail, h2]

/-- Witness for C8: the request with the rejected token `bad` is handled
identically to the same request without an authorization header. -/
theorem identity_failure_degrades_witness :
    POST cfgW reqBadAuthW envW [] =
      POST cfgW ⟨reqBadAuthW.xForwardedFor, none, reqBadAuthW.body⟩ envW [] :=
  identity_failure_degrades cfgW reqBadAuthW envW [] (by decide)

/-- Looking up the key just written. -/
theorem storeGet_storeSet_self (store : RateLimitStore) (key : String) (e : RateEntry) :
    storeGet (storeSet store key e) key = some e := by
  induction store with
  | nil => simp [storeGet, storeSet]
  | cons hd tl ih =>
    obtain ⟨k, e0⟩ := hd
    by_cases hk : (k == key) = true
    · simp [storeGet, storeSet, hk]
    · simp only [storeSet, hk, Bool.false_eq_true, if_false]
      simp only [storeGet, hk, Bool.false_eq_true, if_false]
      exact ih

/-- `isRateLimited` always leaves the key with an entry that is either a
fresh window of count 1 or the old entry incremented in place. -/
theorem isRateLimited_entry (key : String) (now : Nat) (store : RateLimitStore) :
    ∃ e, storeGet (isRateLimited key now store).2 key = some e ∧
      (e = ⟨1, now⟩ ∨
        ∃ old, storeGet store key = some old ∧ e = ⟨old.count + 1, old.windowStart⟩) := by
  unfold isRateLimited
  cases hg : storeGet store key with
  | none => exact ⟨⟨1, now⟩, storeGet_storeSet_self store key ⟨1, now⟩, Or.inl rfl⟩
  | some entry =>
    dsimp only
    by_cases hw : now - entry.windowStart > RATE_LIMIT_WINDOW_MS
    · rw [if_pos hw]
      exact ⟨⟨1, now⟩, storeGet_storeSet_self store key ⟨1, now⟩, Or.inl rfl⟩
    · rw [if_neg hw]
      exact ⟨⟨entry.count + 1, entry.windowStart⟩,
        storeGet_storeSet_self store key ⟨entry.count + 1, entry.windowStart⟩,
        Or.inr ⟨entry, rfl, rfl⟩⟩

/-- `afterConversation` never touches the rate-limit store. -/
theorem afterConversation_rl_store (cfg : Config) (msgs : List IncomingMessage)
    (env : Env) (maxM : Nat) (rid : String) (st : RateLimitStore) (effs : List Effect) :
    (afterConversation cfg msgs env maxM rid st effs).2.1 = st := by
  rcases afterConversation_shape cfg msgs env maxM rid st effs with
    ⟨_, _, heq⟩ | ⟨_, _, _, _, heq⟩ | ⟨_, _, _, _, heq⟩ <;> rw [heq]

/-- **C9** (implicit) The rate-limit table entry for the client key is
created or incremented on every request that passes configuration,
JSON-parsing and messages validation — including requests later rejected
by the guest cap or by any downstream failure — so such a request always
consumes one unit of the client's budget; conversely, requests rejected
for missing configuration, malformed JSON, or a missing or empty
messages list leave the table unchanged. -/
theorem rate_limit_frame (cfg : Config) (req : Request) (env : Env) (store : RateLimitStore) :
    (∀ b msgs, req.body = some b → b.messages = some msgs → msgs ≠ [] →
      truthyStr cfg.basetenApiKey = true → truthyStr cfg.basetenModelSlug = true →
      ((POST cfg req env store).2.1 = rlStoreOf req env b store ∧
        ∃ e, storeGet (rlStoreOf req env b store) (clientKeyOf req env b) = some e ∧
          (e = ⟨1, env.now⟩ ∨
            ∃ old, storeGet store (clientKeyOf req env b) = some old ∧
              e = ⟨old.count + 1, old.windowStart⟩)))
    ∧ ((truthyStr cfg.basetenApiKey = false ∨ truthyStr cfg.basetenModelSlug = false ∨
        req.body = none ∨
        (∃ b, req.body = some b ∧ (b.messages = none ∨ b.messages = some []))) →
      (POST cfg req env store).2.1 = store) := by
  constructor
  · intro b msgs hb hmsgs hne hk hm
    refine ⟨?_, isRateLimited_entry (clientKeyOf req env b) env.now store⟩
    unfold POST
    simp only [hk, hm, hb, hmsgs, Bool.not_true, Bool.or_self, Bool.false_eq_true, if_false]
    rw [if_neg (by simp [List.length_eq_zero, hne])]
    split
    · rfl
    · split
      · rfl
      · split
        · split
          · rfl
          · exact afterConversation_rl_store cfg msgs env (maxMessagesOf req env) _
              (rlStoreOf req env b store) _
        · exact afterConversation_rl_store cfg msgs env (maxMessagesOf req env) _
            (rlStoreOf req env b store) _
  · intro h
    rcases h with hk | hm | hbody | ⟨b, hb, hbm⟩
    · simp only [POST, hk, Bool.not_false, Bool.true_or, if_true]
    · simp only [POST, hm, Bool.not_false, Bool.or_true, if_true]
    · unfold POST
      split
      · rfl
      · rw [hbody]
    · unfold POST
      split
      · rfl
      · rcases hbm with hbm | hbm <;> simp [hb, hbm]

/-- Witness for C9: the anonymous request's first call creates the entry
`{count := 1, windowStart := 1000}` under the key `anonymous`, and the
returned store is exactly the rate-limited one. -/
theorem rate_limit_frame_witness :
    (POST cfgW reqAnonW envW []).2.1 =
      rlStoreOf reqAnonW envW ⟨some [⟨"user", "Hello"⟩], none, none⟩ []
    ∧ ∃ e, storeGet (rlStoreOf reqAnonW envW ⟨some [⟨"user", "Hello"⟩], none, none⟩ [])
        (clientKeyOf reqAnonW envW ⟨some [⟨"user", "Hello"⟩], none, none⟩) = some e ∧
        (e = ⟨1, envW.now⟩ ∨
          ∃ old, storeGet [] (clientKeyOf reqAnonW envW
            ⟨some [⟨"user", "Hello"⟩], none, none⟩) = some old ∧
            e = ⟨old.count + 1, old.windowStart⟩) :=
  (rate_limit_frame cfgW reqAnonW envW []).1 ⟨some [⟨"user", "Hello"⟩], none, none⟩
    [⟨"user", "Hello"⟩] rfl rfl (by decide) (by decide) (by decide)

/-- A request whose non-empty history has no user-role message. -/
def reqNoUserW : Request :=
  ⟨none, none, some ⟨some [⟨"assistant", "prev"⟩], none, none⟩⟩

/-- **C10** (implicit) When the submitted non-empty history contains no
user-role message, no user-role row is ever written to the message
table, every newly created conversation is inserted with a `null` title,
and the pipeline still proceeds: on the concrete no-user-turn request
the provider is invoked and the handler answers 200 — the absence of a
user turn is not an error. -/
theorem no_user_turn (cfg : Config) (req : Request) (env : Env) (store : RateLimitStore)
    (b : ReqBody) (msgs : List IncomingMessage)
    (hb : req.body = some b) (hmsgs : b.messages = some msgs)
    (hnouser : ∀ m ∈ msgs, m.role ≠ "user") :
    (∀ row ok, Effect.messageInsert row ok ∈ (POST cfg req env store).2.2 →
      row.role ≠ "user")
    ∧ (∀ row ok, Effect.conversationInsert row ok ∈ (POST cfg req env store).2.2 →
      row.title = none)
    ∧ (POST cfgW reqNoUserW envW []).1 =
        Response.ok ⟨"conv-1", "assistant-r", "assistant", "Hi!"⟩
    ∧ Effect.providerCall [systemMessage, ⟨"assistant", "prev"⟩]
        ∈ (POST cfgW reqNoUserW envW []).2.2 := by
  have hfind : msgs.reverse.find? (fun m => m.role == "user") = none := by
    rw [List.find?_eq_none]
    intro x hx
    simpa using hnouser x (List.mem_reverse.mp hx)
  have hfindF : msgs.find? (fun m => m.role == "user") = none := by
    rw [List.find?_eq_none]
    intro x hx
    simpa using hnouser x hx
  refine ⟨?_, ?_, by decide, by decide⟩
  · intro row ok hmem
    rcases POST_shape cfg req env store with ⟨hempty, _, _⟩ |
      ⟨b', msgs', hb', hmsgs', heq⟩ | ⟨b', msgs', rid, effs, hb', hmsgs', heffs, heq⟩
    · rw [hempty] at hmem; simp at hmem
    · rw [heq] at hmem; simp at hmem
    · have hbb : b = b' := Option.some_inj.mp (hb.symm.trans hb')
      subst hbb
      have hmm : msgs = msgs' := Option.some_inj.mp (hmsgs.symm.trans hmsgs')
      subst hmm
      rw [heq] at hmem
      rcases afterConversation_messageInsert_mem cfg msgs env (maxMessagesOf req env) rid
          (rlStoreOf req env b store) effs row ok hmem with h | h | h
      · rcases heffs with ⟨_, _, he⟩ | ⟨_, _, he⟩ <;> rw [he] at h <;> simp at h
      · rw [userTurnEffects, hfind] at h; simp at h
      · rw [h]; simp
  · intro row ok hmem
    obtain ⟨b', msgs', hb', hmsgs', hrow⟩ :=
      POST_conversationInsert_mem cfg req env store row ok hmem
    have hbb : b = b' := Option.some_inj.mp (hb.symm.trans hb')
    subst hbb
    have hmm : msgs = msgs' := Option.some_inj.mp (hmsgs.symm.trans hmsgs')
    subst hmm
    rw [hrow]
    unfold convRowOf titleOf
    rw [hfindF]

/-- Witness for C10: for the concrete no-user-turn request, the created
conversation row has a `null` title. -/
theorem no_user_turn_witness :
    (⟨none, none, none⟩ : ConversationRow).title = none :=
  (no_user_turn cfgW reqNoUserW envW [] ⟨some [⟨"assistant", "prev"⟩], none, none⟩
    [⟨"assistant", "prev"⟩] rfl rfl (by decide)).2.1 ⟨none, none, none⟩ true (by decide)

end ChatRoute
